import Mathlib

/-!
Verification of the period-measurement routine of the peripheral_examples
repository (series2/timer/timer_period_measurement_polled/src/main.c).

The C function under study is:

  uint32_t calculatePeriod(void)
  {
    uint32_t current_edge = TIMER_CaptureGet(TIMER0, 0);
    if (TIMER_IntGet(TIMER0) & TIMER_IF_OF) {
      overflowCount++;
      TIMER_IntClear(TIMER0, TIMER_IF_OF);
    }
    uint32_t period = (overflowCount * (TIMER_TopGet(TIMER0) + 2)
                       - lastCapturedEdge + current_edge)
                       / (HFPERCLK_IN_MHZ * (1 << timerPrescale1));
    lastCapturedEdge = current_edge;
    overflowCount = 0;
    return period;
  }

The hardware-facing reads (TIMER_CaptureGet, TIMER_IntGet of the overflow
flag, TIMER_TopGet) are modelled as fields of a HwTimer record, and the three
file-scope globals (measuredPeriod, lastCapturedEdge, overflowCount) as fields
of a Globals record.  All values are C uint32_t, modelled as Nat together with
explicit reduction modulo 2^32 at every arithmetic step, exactly as C unsigned
arithmetic behaves.  TIMER_IntClear of the overflow flag is modelled by the
returned HwTimer having its overflow flag cleared.
-/

/-- Modulus of C uint32_t arithmetic, 2^32. -/
def U32 : Nat := 4294967296

/-- Reduction of a natural number into the uint32_t range. -/
def u32 (n : Nat) : Nat := n % U32

/-- C uint32_t addition: wraps modulo 2^32. -/
def add32 (a b : Nat) : Nat := (a + b) % U32

/-- C uint32_t multiplication: wraps modulo 2^32. -/
def mul32 (a b : Nat) : Nat := (a * b) % U32

/-- C uint32_t subtraction: wraps modulo 2^32 (a - b computed as
a + (2^32 - b) over the reduced operands). -/
def sub32 (a b : Nat) : Nat := (a % U32 + (U32 - b % U32)) % U32

/-- Clock constant from main.c: #define HFPERCLK_IN_MHZ 19. -/
def HFPERCLK_IN_MHZ : Nat := 19

/-- Value of the emlib enum constant timerPrescale1 (divide-by-one prescale),
which is 0; the code divides by HFPERCLK_IN_MHZ * (1 << timerPrescale1). -/
def timerPrescale1 : Nat := 0

/-- The fixed ticks-per-microsecond divisor of the period computation,
HFPERCLK_IN_MHZ * (1 << timerPrescale1) = 19 in the source configuration. -/
def scale : Nat := HFPERCLK_IN_MHZ * (1 <<< timerPrescale1)

/-- Hardware state read by calculatePeriod: the latched capture register
(TIMER_CaptureGet), the overflow interrupt flag (TIMER_IntGet and TIMER_IF_OF),
and the counter top value (TIMER_TopGet).  The capture register and top are
32-bit hardware registers. -/
structure HwTimer where
  captureValue : Nat
  overflowFlag : Bool
  top : Nat
deriving Repr, DecidableEq

/-- The three file-scope globals of main.c: measuredPeriod (written only by
main's loop), lastCapturedEdge and overflowCount (the persistent state of the
period calculation). -/
structure Globals where
  measuredPeriod : Nat
  lastCapturedEdge : Nat
  overflowCount : Nat
deriving Repr, DecidableEq

/-- The overflow count actually used by the period computation: the stored
overflowCount, incremented by one inside the call when the hardware overflow
flag is set (the if block of calculatePeriod). -/
def effectiveOverflowCount (hw : HwTimer) (g : Globals) : Nat :=
  if hw.overflowFlag then u32 (g.overflowCount + 1) else g.overflowCount

/-- The raw-tick expression of calculatePeriod, in C uint32_t arithmetic:
overflowCount * (TIMER_TopGet(TIMER0) + 2) - lastCapturedEdge + current_edge,
evaluated left to right with every operation wrapping modulo 2^32. -/
def rawTicks (hw : HwTimer) (g : Globals) : Nat :=
  add32
    (sub32 (mul32 (effectiveOverflowCount hw g) (add32 (u32 hw.top) 2))
           g.lastCapturedEdge)
    (u32 hw.captureValue)

/-- Shallow embedding of calculatePeriod.  Returns the computed period
together with the updated globals and the updated hardware state.  Inside the
C function the conditional increment of overflowCount happens before the
period expression is evaluated (captured by effectiveOverflowCount inside
rawTicks); the function then stores current_edge into lastCapturedEdge and
resets overflowCount to 0, so the transient increment never survives the
call.  The overflow flag is acknowledged (cleared) whenever it was set, so the
returned flag is false on every path. -/
def calculatePeriod (hw : HwTimer) (g : Globals) : Nat × Globals × HwTimer :=
  (rawTicks hw g / scale,
   { g with lastCapturedEdge := u32 hw.captureValue, overflowCount := 0 },
   { hw with overflowFlag := false })

theorem scale_eq : scale = 19 := by decide

theorem U32_pos : 0 < U32 := by decide

/-- Helper: the raw-tick chain, with the overflow flag clear and an arbitrary
stored overflow count w, computes exactly w * (top + 2) + c - p whenever that
integer quantity is non-negative and fits below 2^32 (the intermediate
products may still exceed 2^32; the final wrap cancels). -/
theorem rawTicks_eq (w p c top mp : Nat) (htop : top + 2 < U32)
    (hlo : p ≤ w * (top + 2) + c) (hhi : w * (top + 2) + c - p < U32) :
    rawTicks ⟨c, false, top⟩ ⟨mp, p, w⟩ = w * (top + 2) + c - p := by
  have htop' : top < U32 := by omega
  simp only [rawTicks, effectiveOverflowCount, mul32, add32, sub32, u32]
  simp only [Bool.false_eq_true, if_false]
  rw [Nat.mod_eq_of_lt htop', Nat.mod_eq_of_lt htop]
  generalize hA : w * (top + 2) = a at hlo hhi
  simp only [U32] at *
  omega

/-- Helper: unconditional mod-2^32 characterization of the raw-tick chain
with the overflow flag clear. -/
theorem rawTicks_mod (w p c top mp : Nat) :
    rawTicks ⟨c, false, top⟩ ⟨mp, p, w⟩
      = (w * ((top % U32 + 2) % U32) % U32 + (U32 - p % U32) + c) % U32 := by
  simp only [rawTicks, effectiveOverflowCount, mul32, add32, sub32, u32]
  simp only [Bool.false_eq_true, if_false]
  generalize w * ((top % U32 + 2) % U32) = a
  simp only [U32]
  omega

/-- C1 (amended): with the overflow flag clear, stored overflow count w,
stored previous edge p and captured edge c at counter top, whenever the
integer raw-tick quantity w * (top + 2) + c - p is non-negative and below
2^32 (and top + 2 itself is below 2^32), calculatePeriod returns exactly
(w * (top + 2) + c - p) / scale with truncating Nat division.  The original
universal claim without the non-negativity and range side conditions is
refuted by C1_counterexample. -/
theorem C1_period_formula (w p c top mp : Nat)
    (htop : top + 2 < U32) (hp : p ≤ top) (hc : c ≤ top)
    (hlo : p ≤ w * (top + 2) + c) (hhi : w * (top + 2) + c - p < U32) :
    (calculatePeriod ⟨c, false, top⟩ ⟨mp, p, w⟩).1 = (w * (top + 2) + c - p) / scale := by
  show rawTicks ⟨c, false, top⟩ ⟨mp, p, w⟩ / scale = _
  rw [rawTicks_eq w p c top mp htop hlo hhi]

/-- Witness for C1_period_formula at w = 1, p = 950, c = 50, top = 999. -/
theorem C1_period_formula_witness :
    (calculatePeriod ⟨50, false, 999⟩ ⟨0, 950, 1⟩).1 = (1 * (999 + 2) + 50 - 950) / scale :=
  C1_period_formula 1 950 50 999 0 (by decide) (by decide) (by decide) (by decide) (by decide)

/-- C1 counterexample: with no overflow signaled (w = 0), p = 950, c = 0,
top = 999, the claimed formula (w * (top + 2) - p + c) / scale evaluates over
the integers, with truncating division, to -50, while the code wraps the
uint32 subtraction and returns 226050860. -/
theorem C1_counterexample :
    (calculatePeriod ⟨0, false, 999⟩ ⟨0, 950, 0⟩).1 = 226050860 ∧
    ((0 : Int) * (999 + 2) - 950 + 0) / 19 = -50 ∧
    ¬ (((calculatePeriod ⟨0, false, 999⟩ ⟨0, 950, 0⟩).1 : Int)
        = ((0 : Int) * (999 + 2) - 950 + 0) / 19) := by
  refine ⟨by decide, by decide, by decide⟩

/-- C2: with counter top 999 and scale 19, one overflow signaled (the flag is
set at the call with stored count 0), stored edge 950 and captured edge 50,
the raw-tick expression evaluates to 1 * 1001 - 950 + 50 = 101 and the call
returns 101 / 19 = 5 microseconds. -/
theorem C2_concrete_overflow :
    rawTicks ⟨50, true, 999⟩ ⟨0, 950, 0⟩ = 101 ∧
    (calculatePeriod ⟨50, true, 999⟩ ⟨0, 950, 0⟩).1 = 5 := by
  refine ⟨by decide, by decide⟩

/-- C3: every call rewrites the persistent state to lastCapturedEdge =
captured edge of the call and overflowCount = 0, leaves measuredPeriod (the
only other global) untouched, and the only hardware effect is acknowledging
the overflow flag. -/
theorem C3_state_update (hw : HwTimer) (g : Globals) (hcap : hw.captureValue < U32) :
    (calculatePeriod hw g).2.1 = ⟨g.measuredPeriod, hw.captureValue, 0⟩ ∧
    (calculatePeriod hw g).2.2 = { hw with overflowFlag := false } := by
  obtain ⟨mp, l, o⟩ := g
  refine ⟨?_, rfl⟩
  simp [calculatePeriod, u32, Nat.mod_eq_of_lt hcap]

/-- Witness for C3_state_update at a concrete call. -/
theorem C3_state_update_witness :
    (calculatePeriod ⟨50, true, 999⟩ ⟨7, 950, 3⟩).2.1 = ⟨7, 50, 0⟩ ∧
    (calculatePeriod ⟨50, true, 999⟩ ⟨7, 950, 3⟩).2.2 = ⟨50, false, 999⟩ := by
  have h := C3_state_update ⟨50, true, 999⟩ ⟨7, 950, 3⟩ (by decide)
  exact ⟨h.1, h.2⟩

/-- C4: a second consecutive call with the same captured edge and the
overflow flag clear returns period 0, for every starting hardware state and
every starting globals. -/
theorem C4_repeat_zero (hw : HwTimer) (g : Globals) :
    (calculatePeriod { hw with overflowFlag := false } (calculatePeriod hw g).2.1).1 = 0 := by
  obtain ⟨cv, fl, tp⟩ := hw
  simp only [calculatePeriod, rawTicks, effectiveOverflowCount, mul32, add32, sub32, u32]
  simp only [Bool.false_eq_true, if_false, Nat.zero_mul, scale_eq]
  simp only [U32]
  omega

/-- C5: two consecutive calls, the first with stored overflow count w1 ending
at reading m and the second with w2 further overflow signals ending at reading
c, accumulate the same total raw ticks as one call with count w1 + w2 going
from p to c.  The first conjunct is the unconditional statement in the
program's own uint32 arithmetic (the totals summed modulo 2^32); the second
gives exact Nat equality of the sums whenever the segment tick counts are
non-negative and the total fits below 2^32. -/
theorem C5_two_calls (w1 w2 p m c top mp : Nat) :
    add32 (rawTicks ⟨m, false, top⟩ ⟨mp, p, w1⟩)
          (rawTicks ⟨c, false, top⟩
            { (calculatePeriod ⟨m, false, top⟩ ⟨mp, p, w1⟩).2.1 with overflowCount := w2 }) =
      rawTicks ⟨c, false, top⟩ ⟨mp, p, w1 + w2⟩ ∧
    (top + 2 < U32 → p ≤ top → m ≤ top → c ≤ top →
     p ≤ w1 * (top + 2) + m → m ≤ w2 * (top + 2) + c →
     w1 * (top + 2) + m - p + (w2 * (top + 2) + c - m) < U32 →
      rawTicks ⟨m, false, top⟩ ⟨mp, p, w1⟩ +
        rawTicks ⟨c, false, top⟩
          { (calculatePeriod ⟨m, false, top⟩ ⟨mp, p, w1⟩).2.1 with overflowCount := w2 } =
        rawTicks ⟨c, false, top⟩ ⟨mp, p, w1 + w2⟩) := by
  have hstate0 : ({ (calculatePeriod ⟨m, false, top⟩ ⟨mp, p, w1⟩).2.1 with
      overflowCount := w2 } : Globals) = ⟨mp, u32 m, w2⟩ := rfl
  constructor
  · rw [hstate0, rawTicks_mod w1 p m top mp, rawTicks_mod w2 (u32 m) c top mp,
        rawTicks_mod (w1 + w2) p c top mp]
    simp only [add32, u32, Nat.add_mul]
    generalize w1 * ((top % U32 + 2) % U32) = a1
    generalize w2 * ((top % U32 + 2) % U32) = a2
    simp only [U32]
    omega
  · intro htop hp hm hc h1 h2 hfit
    have hmU : m < U32 := by omega
    have hstate : ({ (calculatePeriod ⟨m, false, top⟩ ⟨mp, p, w1⟩).2.1 with
        overflowCount := w2 } : Globals) = ⟨mp, m, w2⟩ := by
      simp [calculatePeriod, u32, Nat.mod_eq_of_lt hmU]
    have hT : (w1 + w2) * (top + 2) = w1 * (top + 2) + w2 * (top + 2) :=
      Nat.add_mul w1 w2 (top + 2)
    have s1hi : w1 * (top + 2) + m - p < U32 := by omega
    have s2hi : w2 * (top + 2) + c - m < U32 := by omega
    have s3lo : p ≤ (w1 + w2) * (top + 2) + c := by omega
    have s3hi : (w1 + w2) * (top + 2) + c - p < U32 := by omega
    rw [hstate, rawTicks_eq w1 p m top mp htop h1 s1hi,
        rawTicks_eq w2 m c top mp htop h2 s2hi,
        rawTicks_eq (w1 + w2) p c top mp htop s3lo s3hi]
    omega

/-- Witness for C5_two_calls (second conjunct) at w1 = 1, w2 = 2, p = 950,
m = 50, c = 100, top = 999. -/
theorem C5_two_calls_witness :
    rawTicks ⟨50, false, 999⟩ ⟨0, 950, 1⟩ +
      rawTicks ⟨100, false, 999⟩
        { (calculatePeriod ⟨50, false, 999⟩ ⟨0, 950, 1⟩).2.1 with overflowCount := 2 } =
    rawTicks ⟨100, false, 999⟩ ⟨0, 950, 1 + 2⟩ :=
  (C5_two_calls 1 2 950 50 100 999 0).2 (by decide) (by decide) (by decide) (by decide)
    (by decide) (by decide) (by decide)

/-- C6: with no overflow signaled, stored count 0, previous edge 0 and
captured edge equal to the counter top, the raw-tick expression evaluates to
exactly the counter top, for every uint32 top value. -/
theorem C6_boundary (top mp : Nat) (h : top < U32) :
    rawTicks ⟨top, false, top⟩ ⟨mp, 0, 0⟩ = top := by
  simp only [rawTicks, effectiveOverflowCount, mul32, add32, sub32, u32]
  simp only [Bool.false_eq_true, if_false, Nat.zero_mul]
  simp only [U32] at *
  omega

/-- Witness for C6_boundary at top = 999. -/
theorem C6_boundary_witness : rawTicks ⟨999, false, 999⟩ ⟨0, 0, 0⟩ = 999 :=
  C6_boundary 999 0 (by decide)

/-- C7: with top 999, scale 19, previous edge 0, captured edge 19000 and no
overflow signaled, the raw-tick expression is 19000 and the call returns
1000 microseconds. -/
theorem C7_concrete_no_overflow :
    rawTicks ⟨19000, false, 999⟩ ⟨0, 0, 0⟩ = 19000 ∧
    (calculatePeriod ⟨19000, false, 999⟩ ⟨0, 0, 0⟩).1 = 1000 := by
  refine ⟨by decide, by decide⟩

/-- C8: the period calculation is a total function of its inputs: on every
hardware state and every globals it completes and returns a value in the
uint32 range, signaling no error. -/
theorem C8_total_no_error (hw : HwTimer) (g : Globals) :
    (calculatePeriod hw g).1 < U32 := by
  have h : rawTicks hw g < U32 := Nat.mod_lt _ (by decide)
  exact lt_of_le_of_lt (Nat.div_le_self (rawTicks hw g) scale) h

/-- C9: all arithmetic of the period computation is uint32 modular: with the
flag clear, the raw-tick value is the mod-2^32 reduction of
w * (top + 2) + (2^32 - p) + c for every input, and at the concrete
no-overflow input p = 950, c = 0 (c < p) the subtraction wraps and the call
returns the very large period (2^32 - 950) / 19 = 226050860. -/
theorem C9_modular_wrap :
    (∀ w p c top mp, rawTicks ⟨c, false, top⟩ ⟨mp, p, w⟩
        = (w * ((top % U32 + 2) % U32) % U32 + (U32 - p % U32) + c) % U32) ∧
    (calculatePeriod ⟨0, false, 999⟩ ⟨0, 950, 0⟩).1 = (U32 - 950 + 0) / 19 ∧
    (calculatePeriod ⟨0, false, 999⟩ ⟨0, 950, 0⟩).1 = 226050860 ∧
    2 ^ 27 < (calculatePeriod ⟨0, false, 999⟩ ⟨0, 950, 0⟩).1 := by
  exact ⟨fun w p c top mp => rawTicks_mod w p c top mp, by decide, by decide, by decide⟩

/-- C10: within a single invocation the overflow count used by the
computation exceeds the stored count by at most one, and (absent uint32 wrap
of the count itself) by exactly one when the overflow flag is set and zero
when it is clear. -/
theorem C10_single_increment (hw : HwTimer) (g : Globals) :
    effectiveOverflowCount hw g ≤ g.overflowCount + 1 ∧
    (g.overflowCount + 1 < U32 →
      effectiveOverflowCount hw g = g.overflowCount + (if hw.overflowFlag then 1 else 0)) := by
  obtain ⟨cv, fl, tp⟩ := hw
  cases fl <;> simp [effectiveOverflowCount, u32, U32] <;> omega

/-- Witness for C10_single_increment at a concrete call with the flag set. -/
theorem C10_single_increment_witness :
    effectiveOverflowCount ⟨50, true, 999⟩ ⟨0, 950, 3⟩ ≤ 3 + 1 ∧
    effectiveOverflowCount ⟨50, true, 999⟩ ⟨0, 950, 3⟩ = 3 + 1 :=
  ⟨(C10_single_increment ⟨50, true, 999⟩ ⟨0, 950, 3⟩).1,
   (C10_single_increment ⟨50, true, 999⟩ ⟨0, 950, 3⟩).2 (by decide)⟩
